import Mathlib

/-!
Shallow embedding of the VCS core of Helio Workstation, centred on
`Source/Core/VCS/RevisionItem.cpp`.  Collaborating types whose sources are
not part of this file set (JUCE's `ValueTree`/`var`, `Delta`, `Pack`,
`DiffLogic`, the `TrackedItem` contract and the `RevisionItem` header) are
modelled from the specification, each marked in its doc comment.
-/

set_option autoImplicit false

/-- Modelled from the spec: a JUCE `var` property value, which for this core
holds either an integer or a string.  Conversion of a string to an integer
follows `String::getIntValue` (non-numeric text yields 0). -/
inductive VVar where
  | int (n : Int)
  | str (s : String)
deriving DecidableEq

/-- Conversion of a `var` to `int` (JUCE `var::operator int`). -/
def VVar.toInt : VVar → Int
  | .int n => n
  | .str s => (s.toInt?).getD 0

/-- Conversion of a `var` to `String` (JUCE `var::toString`). -/
def VVar.toStr : VVar → String
  | .int n => toString n
  | .str s => s

/-- Modelled from the spec: the structured persisted form, a tree of named
nodes with key-value attributes (JUCE `ValueTree`).  `invalid` is the
default-constructed invalid tree (`isValid() == false`), which JUCE also
returns on a failed child lookup. -/
inductive ValueTree where
  | invalid : ValueTree
  | node (ty : String) (props : List (String × VVar)) (children : List ValueTree)

/-- Property update on an attribute list: replace the first binding of the
name, or append a new one (JUCE `ValueTree::setProperty`). -/
def setPropList (props : List (String × VVar)) (name : String) (v : VVar) :
    List (String × VVar) :=
  match props with
  | [] => [(name, v)]
  | (n, w) :: rest =>
    if n = name then (name, v) :: rest else (n, w) :: setPropList rest name v

/-- Property lookup on an attribute list. -/
def getPropList (props : List (String × VVar)) (name : String) : Option VVar :=
  match props with
  | [] => none
  | (n, w) :: rest => if n = name then some w else getPropList rest name

/-- Validity of a tree (JUCE `ValueTree::isValid`). -/
def ValueTree.isValid : ValueTree → Bool
  | .invalid => false
  | .node _ _ _ => true

/-- Type test on a tree (JUCE `ValueTree::hasType`); false for invalid trees. -/
def ValueTree.hasType (t : ValueTree) (ty : String) : Bool :=
  match t with
  | .invalid => false
  | .node n _ _ => n = ty

/-- Children of a tree; the invalid tree has none. -/
def ValueTree.children : ValueTree → List ValueTree
  | .invalid => []
  | .node _ _ ch => ch

/-- First child with the given type, or the invalid tree
(JUCE `ValueTree::getChildWithName`). -/
def ValueTree.getChildWithName (t : ValueTree) (ty : String) : ValueTree :=
  match (t.children).find? (fun c => c.hasType ty) with
  | some c => c
  | none => ValueTree.invalid

/-- Property read with a default (JUCE `ValueTree::getProperty`); an invalid
tree or a missing attribute yields the default. -/
def ValueTree.getProperty (t : ValueTree) (name : String) (dflt : VVar) : VVar :=
  match t with
  | .invalid => dflt
  | .node _ props _ =>
    match getPropList props name with
    | some v => v
    | none => dflt

/-- Property write (JUCE `ValueTree::setProperty`); a no-op on the invalid
tree. -/
def ValueTree.setProperty (t : ValueTree) (name : String) (v : VVar) : ValueTree :=
  match t with
  | .invalid => .invalid
  | .node ty props ch => .node ty (setPropList props name v) ch

/-- Child append (JUCE `ValueTree::appendChild`); a no-op on the invalid
tree. -/
def ValueTree.appendChild (t : ValueTree) (c : ValueTree) : ValueTree :=
  match t with
  | .invalid => .invalid
  | .node ty props ch => .node ty props (ch ++ [c])

/-- Deep copy of a tree (JUCE `ValueTree::createCopy`); under value semantics
this is the identity. -/
def ValueTree.createCopy (t : ValueTree) : ValueTree := t

/-- Modelled from the spec: serialization attribute names used by the
persisted `revisionItem` shape (the `Serialization::VCS` identifiers are not
part of this file set). -/
def revisionItemKey : String := "revisionItem"

/-- Attribute name for the inherited identity field. -/
def vcsUuidKey : String := "vcsUuid"

/-- Attribute name for the item type integer. -/
def revisionItemTypeKey : String := "revisionItemType"

/-- Attribute name for the item display name. -/
def revisionItemNameKey : String := "revisionItemName"

/-- Attribute name for the diff-logic type tag. -/
def revisionItemDiffLogicKey : String := "revisionItemDiffLogic"

/-- Modelled from the spec: a `Delta` is an immutable unit of change with a
stable id (`vcsUuid`) and a kind tag (`type`); its payload lives elsewhere
(in the pending cache or the Pack). -/
structure Delta where
  vcsUuid : String
  type : String
deriving DecidableEq

/-- The blank delta produced by `new Delta({}, {})`. -/
def Delta.blank : Delta := ⟨"", ""⟩

/-- Copy of a delta; per the spec copies preserve the original id and kind
tag. -/
def Delta.createCopy (d : Delta) : Delta := d

/-- Modelled from the spec: a delta's own serialized form, carrying its id
and kind tag (order-significant children of the revision item node). -/
def Delta.serialize (d : Delta) : ValueTree :=
  ValueTree.node "delta" [("deltaId", VVar.str d.vcsUuid), ("deltaType", VVar.str d.type)] []

/-- Modelled from the spec: reconstruction of a delta from its serialized
form; an input without a `delta` node leaves the receiver unchanged. -/
def Delta.deserialize (d : Delta) (tree : ValueTree) : Delta :=
  let root := if tree.hasType "delta" then tree else tree.getChildWithName "delta"
  if root.isValid then
    ⟨(root.getProperty "deltaId" (VVar.str "")).toStr,
     (root.getProperty "deltaType" (VVar.str "")).toStr⟩
  else d

/-- Modelled from the spec: `Pack` is a store keyed by
`(itemUuid, deltaUuid)` where a write is a last-write-wins upsert. -/
structure Pack where
  store : List ((String × String) × ValueTree)

/-- Write-through of one payload (`Pack::setDeltaDataFor`): last write wins,
so the new binding shadows any earlier one for the same key. -/
def Pack.setDeltaDataFor (p : Pack) (itemId deltaId : String) (payload : ValueTree) : Pack :=
  ⟨((itemId, deltaId), payload) :: p.store⟩

/-- Key lookup in the backing list: the most recent write for the key. -/
def packFind (store : List ((String × String) × ValueTree)) (k : String × String) : ValueTree :=
  match store with
  | [] => ValueTree.invalid
  | (k2, v) :: rest => if k2 = k then v else packFind rest k

/-- Payload fetch (`Pack::createDeltaDataFor`); a missing key yields the
empty sentinel tree, a recoverable condition. -/
def Pack.createDeltaDataFor (p : Pack) (itemId deltaId : String) : ValueTree :=
  packFind p.store (itemId, deltaId)

/-- Modelled from the spec: the `TrackedItem` capability contract — stable
identity, display name, the concrete diff-logic type of the live object,
its current deltas and, per delta index, the live serialized payload. -/
structure TrackedItem where
  vcsUuid : String
  vcsName : String
  logicType : String
  deltas : List Delta
  payloads : List ValueTree

/-- Display name accessor of a tracked item. -/
def TrackedItem.getVCSName (t : TrackedItem) : String := t.vcsName

/-- Identity accessor of a tracked item. -/
def TrackedItem.getUuid (t : TrackedItem) : String := t.vcsUuid

/-- Delta count of a tracked item. -/
def TrackedItem.getNumDeltas (t : TrackedItem) : Nat := t.deltas.length

/-- Delta accessor of a tracked item. -/
def TrackedItem.getDelta (t : TrackedItem) (i : Nat) : Delta :=
  t.deltas.getD i Delta.blank

/-- Live serialized payload for delta `i` of a tracked item. -/
def TrackedItem.serializeDeltaData (t : TrackedItem) (i : Nat) : ValueTree :=
  t.payloads.getD i ValueTree.invalid

/-- Modelled from the spec: `DiffLogic::createLogicFor` is a factory keyed by
the persisted type tag, returning null for unknown tags; a diff logic is
identified here by its type tag, so the factory returns the tag itself when
it is registered. -/
def DiffLogic.createLogicFor (knownTags : List String) (tag : String) : Option String :=
  if tag ∈ knownTags then some tag else none

/-- Modelled from the spec: `DiffLogic::createLogicCopy` binds a new instance
of the same concrete diff strategy as the source's live type. -/
def DiffLogic.createLogicCopy (t : TrackedItem) : Option String :=
  some t.logicType

/-- State of a `RevisionItem`: identity, name snapshot, the persisted type
as its underlying integer (the C++ `static_cast<Type>` stores the raw
value), the bound diff logic (by type tag, null before binding), the delta
list and the parallel pending payload cache.  The Pack is passed explicitly
to the operations that use it. -/
structure RevisionItem where
  vcsUuid : String
  description : String
  vcsItemType : Int
  logic : Option String
  deltas : List Delta
  deltasData : List ValueTree

/-- Modelled from the spec: the enumerated `RevisionItem::Type` values, with
the ordering `Added = 0, Removed, Changed, Undefined` given by the persisted
form. -/
def RevisionItem.Added : Int := 0

/-- Enumerated type value `Removed`. -/
def RevisionItem.Removed : Int := 1

/-- Enumerated type value `Changed`. -/
def RevisionItem.Changed : Int := 2

/-- Enumerated type value `Undefined`. -/
def RevisionItem.Undefined : Int := 3

/-- Type accessor (`RevisionItem::getType`). -/
def RevisionItem.getType (r : RevisionItem) : Int := r.vcsItemType

/-- Identity accessor (`getUuid`, inherited from `TrackedItem`). -/
def RevisionItem.getUuid (r : RevisionItem) : String := r.vcsUuid

/-- Name accessor (`RevisionItem::getVCSName`). -/
def RevisionItem.getVCSName (r : RevisionItem) : String := r.description

/-- Delta count (`RevisionItem::getNumDeltas`). -/
def RevisionItem.getNumDeltas (r : RevisionItem) : Nat := r.deltas.length

/-- Constructor `RevisionItem(Pack::Ptr, Type, TrackedItem*)`: when the
target is non-null it copies the name and uuid, binds a copy of the source's
diff logic, and deep-copies every delta together with its live payload.
`freshUuid` stands for the uuid member's random initial value, kept when the
target is null. -/
def RevisionItem.construct (type : Int) (freshUuid : String)
    (targetToCopy : Option TrackedItem) : RevisionItem :=
  match targetToCopy with
  | none =>
    { vcsUuid := freshUuid, description := "", vcsItemType := type,
      logic := none, deltas := [], deltasData := [] }
  | some t =>
    { vcsUuid := t.getUuid, description := t.getVCSName, vcsItemType := type,
      logic := DiffLogic.createLogicCopy t,
      deltas := (List.range t.getNumDeltas).map (fun i => (t.getDelta i).createCopy),
      deltasData := (List.range t.getNumDeltas).map (fun i => t.serializeDeltaData i) }

/-- Flush (`RevisionItem::flushData`): every pending payload is written
through the Pack keyed by this item's uuid and the matching delta's uuid,
then the pending cache is cleared. -/
def RevisionItem.flushData (r : RevisionItem) (p : Pack) : RevisionItem × Pack :=
  ({ r with deltasData := [] },
   (List.range r.deltasData.length).foldl
     (fun q i =>
       q.setDeltaDataFor r.getUuid ((r.deltas.getD i Delta.blank).vcsUuid)
         (r.deltasData.getD i ValueTree.invalid))
     p)

/-- Payload retrieval (`RevisionItem::serializeDeltaData`): the in-memory
pending payload when the index is within the cache's bounds, otherwise a
fetch from the Pack. -/
def RevisionItem.serializeDeltaData (r : RevisionItem) (p : Pack) (deltaIndex : Nat) :
    ValueTree :=
  if deltaIndex < r.deltasData.length then
    (r.deltasData.getD deltaIndex ValueTree.invalid)
  else
    p.createDeltaDataFor r.getUuid ((r.deltas.getD deltaIndex Delta.blank).vcsUuid)

/-- Index of the first delta with the given uuid — the search loop of
`RevisionItem::importDataForDelta`. -/
def findDeltaIdx (deltas : List Delta) (deltaUuid : String) : Option Nat :=
  match deltas with
  | [] => none
  | d :: rest =>
    if d.vcsUuid = deltaUuid then some 0
    else (findDeltaIdx rest deltaUuid).map (· + 1)

/-- The placeholder tree `ValueTree("dummy")` used to grow the pending
cache. -/
def dummyTree : ValueTree := ValueTree.node "dummy" [] []

/-- Import (`RevisionItem::importDataForDelta`): find the delta with the
matching uuid; when found, grow the pending cache with placeholders up to
its index and overwrite that slot with a deep copy of the payload; when no
delta matches, change nothing. -/
def RevisionItem.importDataForDelta (r : RevisionItem) (deltaDataToCopy : ValueTree)
    (deltaUuid : String) : RevisionItem :=
  match findDeltaIdx r.deltas deltaUuid with
  | none => r
  | some i =>
    { r with
      deltasData :=
        (r.deltasData ++ List.replicate (i + 1 - r.deltasData.length) dummyTree).set i
          deltaDataToCopy.createCopy }

/-- Reset (`RevisionItem::reset`): clears the deltas, the name and the type;
the pending payload cache is not touched. -/
def RevisionItem.reset (r : RevisionItem) : RevisionItem :=
  { r with deltas := [], description := "", vcsItemType := RevisionItem.Undefined }

/-- Serialization (`RevisionItem::serialize`): a `revisionItem` node with
the uuid, type, name and diff-logic tag attributes and one serialized child
per delta, in delta order; payloads are not inlined. -/
def RevisionItem.serialize (r : RevisionItem) : ValueTree :=
  let t0 := ValueTree.node revisionItemKey [] []
  let t1 := t0.setProperty vcsUuidKey (VVar.str r.getUuid)
  let t2 := t1.setProperty revisionItemTypeKey (VVar.int r.getType)
  let t3 := t2.setProperty revisionItemNameKey (VVar.str r.getVCSName)
  let t4 := t3.setProperty revisionItemDiffLogicKey (VVar.str (r.logic.getD ""))
  r.deltas.foldl (fun t d => t.appendChild d.serialize) t4

/-- Deserialization (`RevisionItem::deserialize`): reset, resolve the
`revisionItem` root (the tree itself or a child of that name; bail out when
neither is valid), then restore the uuid, name, the type via a raw
`static_cast` of the stored integer, the diff logic via `createLogicFor`,
and one delta per child node. -/
def RevisionItem.deserialize (knownTags : List String) (r : RevisionItem)
    (tree : ValueTree) : RevisionItem :=
  let r0 := r.reset
  let root := if tree.hasType revisionItemKey then tree
              else tree.getChildWithName revisionItemKey
  if root.isValid then
    { r0 with
      vcsUuid := (root.getProperty vcsUuidKey (VVar.str r0.vcsUuid)).toStr,
      description := (root.getProperty revisionItemNameKey (VVar.str "")).toStr,
      vcsItemType := (root.getProperty revisionItemTypeKey
        (VVar.int RevisionItem.Undefined)).toInt,
      logic := DiffLogic.createLogicFor knownTags
        ((root.getProperty revisionItemDiffLogicKey (VVar.str "")).toStr),
      deltas := root.children.map (fun e => Delta.blank.deserialize e) }
  else r0

/-! Concrete example values used by the witness theorems. -/

/-- Example delta. -/
def exDelta1 : Delta := ⟨"delta-one", "noteAdded"⟩

/-- Second example delta, with a different uuid. -/
def exDelta2 : Delta := ⟨"delta-two", "noteChanged"⟩

/-- Example payload tree. -/
def exPayload1 : ValueTree := ValueTree.node "payload" [("x", VVar.int 1)] []

/-- Second example payload tree. -/
def exPayload2 : ValueTree := ValueTree.node "payload" [("x", VVar.int 2)] []

/-- Example tracked item with two deltas and their payloads. -/
def exTracked : TrackedItem :=
  ⟨"item-uuid", "Piano Track", "PianoTrackDiffLogic",
   [exDelta1, exDelta2], [exPayload1, exPayload2]⟩

/-- The empty pack. -/
def emptyPack : Pack := ⟨[]⟩

/-- Example revision item snapshotted from `exTracked`. -/
def exR : RevisionItem :=
  RevisionItem.construct RevisionItem.Changed "fresh" (some exTracked)

/-! Helper lemmas. -/

/-- Reading a mapped range at an in-bounds index gives the function value. -/
lemma getD_range_map {α : Type} (f : Nat → α) (d : α) (n i : Nat) (h : i < n) :
    ((List.range n).map f).getD i d = f i := by
  have hl : i < ((List.range n).map f).length := by simpa using h
  rw [List.getD_eq_getElem _ _ hl, List.getElem_map, List.getElem_range]

/-! Theorems about the claims. -/

/-- C10: constructing a RevisionItem with a null TrackedItem pointer yields an
item with zero deltas, an empty pending payload cache, an empty name, no
bound diff logic, and the given type. -/
theorem construct_null_target (type : Int) (freshUuid : String) :
    (RevisionItem.construct type freshUuid none).deltas = [] ∧
      (RevisionItem.construct type freshUuid none).deltasData = [] ∧
      (RevisionItem.construct type freshUuid none).getVCSName = "" ∧
      (RevisionItem.construct type freshUuid none).logic = none ∧
      (RevisionItem.construct type freshUuid none).getType = type :=
  ⟨rfl, rfl, rfl, rfl, rfl⟩

/-- C7: a second flushData directly after a first one is a no-op: it changes
neither the revision item nor the pack, because the pending cache is already
empty. -/
theorem flushData_idempotent (r : RevisionItem) (p : Pack) :
    ((r.flushData p).1).flushData ((r.flushData p).2) = r.flushData p := rfl

/-- C5: serializeDeltaData is a two-tier lookup: the pending in-memory
payload when the cache covers the index, otherwise the Pack entry keyed by
the item uuid and the delta uuid. -/
theorem serializeDeltaData_two_tier (r : RevisionItem) (p : Pack) (i : Nat) :
    r.serializeDeltaData p i =
      (r.deltasData[i]?).getD
        (p.createDeltaDataFor r.getUuid ((r.deltas.getD i Delta.blank).vcsUuid)) := by
  unfold RevisionItem.serializeDeltaData
  by_cases h : i < r.deltasData.length
  · rw [if_pos h, List.getElem?_eq_getElem h, Option.getD_some, List.getD_eq_getElem _ _ h]
  · rw [if_neg h, List.getElem?_eq_none (by omega), Option.getD_none]

/-- C2: reset clears the deltas, the name and the type; a deserialize whose
input has no valid revisionItem node stops right after that reset, so those
three fields are left in the cleared state. -/
theorem reset_clears_and_failed_deserialize_clears (knownTags : List String)
    (r : RevisionItem) (tree : ValueTree)
    (h1 : tree.hasType revisionItemKey = false)
    (h2 : (tree.getChildWithName revisionItemKey).isValid = false) :
    r.reset.deltas = [] ∧ r.reset.getVCSName = "" ∧
      r.reset.getType = RevisionItem.Undefined ∧
      (RevisionItem.deserialize knownTags r tree).deltas = [] ∧
      (RevisionItem.deserialize knownTags r tree).getVCSName = "" ∧
      (RevisionItem.deserialize knownTags r tree).getType = RevisionItem.Undefined := by
  have hd : RevisionItem.deserialize knownTags r tree = r.reset := by
    unfold RevisionItem.deserialize
    simp [h1, h2]
  rw [hd]
  exact ⟨rfl, rfl, rfl, rfl, rfl, rfl⟩

/-- C2 witness: the invalid tree has no revisionItem node, and deserializing
it from the example item leaves the cleared state. -/
theorem reset_clears_witness :
    ValueTree.invalid.hasType revisionItemKey = false ∧
      (ValueTree.invalid.getChildWithName revisionItemKey).isValid = false ∧
      (exR.reset.deltas = [] ∧ exR.reset.getVCSName = "" ∧
        exR.reset.getType = RevisionItem.Undefined ∧
        (RevisionItem.deserialize [] exR ValueTree.invalid).deltas = [] ∧
        (RevisionItem.deserialize [] exR ValueTree.invalid).getVCSName = "" ∧
        (RevisionItem.deserialize [] exR ValueTree.invalid).getType =
          RevisionItem.Undefined) :=
  ⟨rfl, rfl, reset_clears_and_failed_deserialize_clears [] exR ValueTree.invalid rfl rfl⟩

/-- C9: reset does not touch the pending payload cache, deserialize does not
either, and after a re-deserialization the old cached payloads are still
returned for indices inside the old cache's bounds. -/
theorem cache_survives_reset_and_deserialize (knownTags : List String)
    (r : RevisionItem) (tree : ValueTree) (p : Pack) (i : Nat)
    (hi : i < r.deltasData.length) :
    r.reset.deltasData = r.deltasData ∧
      (RevisionItem.deserialize knownTags r tree).deltasData = r.deltasData ∧
      (RevisionItem.deserialize knownTags r tree).serializeDeltaData p i =
        r.deltasData.getD i ValueTree.invalid := by
  have hd : (RevisionItem.deserialize knownTags r tree).deltasData = r.deltasData := by
    unfold RevisionItem.deserialize
    dsimp only
    split <;> split <;> rfl
  refine ⟨rfl, hd, ?_⟩
  unfold RevisionItem.serializeDeltaData
  rw [hd, if_pos hi]

/-- C9 witness: the example item keeps both cached payloads across a failed
deserialize, and index 0 still reads the first one from the cache. -/
theorem cache_survives_witness :
    0 < exR.deltasData.length ∧
      (exR.reset.deltasData = exR.deltasData ∧
        (RevisionItem.deserialize [] exR ValueTree.invalid).deltasData = exR.deltasData ∧
        (RevisionItem.deserialize [] exR ValueTree.invalid).serializeDeltaData emptyPack 0 =
          exR.deltasData.getD 0 ValueTree.invalid) :=
  ⟨by decide, cache_survives_reset_and_deserialize [] exR ValueTree.invalid emptyPack 0
    (by decide)⟩

/-- C4: a RevisionItem copy-constructed from a TrackedItem has the same
number of deltas, returns the source's payload for every in-range index
before any flush, and copies the source's name and uuid. -/
theorem construct_from_tracked (type : Int) (freshUuid : String) (t : TrackedItem)
    (p : Pack) (i : Nat) (hi : i < t.getNumDeltas) :
    (RevisionItem.construct type freshUuid (some t)).getNumDeltas = t.getNumDeltas ∧
      (RevisionItem.construct type freshUuid (some t)).serializeDeltaData p i =
        t.serializeDeltaData i ∧
      (RevisionItem.construct type freshUuid (some t)).getVCSName = t.getVCSName ∧
      (RevisionItem.construct type freshUuid (some t)).getUuid = t.getUuid := by
  refine ⟨?_, ?_, rfl, rfl⟩
  · show ((List.range t.getNumDeltas).map fun i => (t.getDelta i).createCopy).length =
      t.getNumDeltas
    simp
  · unfold RevisionItem.serializeDeltaData
    have hlen : (RevisionItem.construct type freshUuid (some t)).deltasData.length =
        t.getNumDeltas := by
      show ((List.range t.getNumDeltas).map fun i => t.serializeDeltaData i).length = _
      simp
    rw [if_pos (by rw [hlen]; exact hi)]
    show ((List.range t.getNumDeltas).map fun i => t.serializeDeltaData i).getD i
      ValueTree.invalid = _
    exact getD_range_map _ _ _ _ hi

/-- C4 witness: the example snapshot of the two-delta tracked item has two
deltas and returns the first source payload at index 0. -/
theorem construct_from_tracked_witness :
    0 < exTracked.getNumDeltas ∧
      ((RevisionItem.construct RevisionItem.Changed "fresh" (some exTracked)).getNumDeltas =
          exTracked.getNumDeltas ∧
        (RevisionItem.construct RevisionItem.Changed "fresh"
            (some exTracked)).serializeDeltaData emptyPack 0 =
          exTracked.serializeDeltaData 0 ∧
        (RevisionItem.construct RevisionItem.Changed "fresh" (some exTracked)).getVCSName =
          exTracked.getVCSName ∧
        (RevisionItem.construct RevisionItem.Changed "fresh" (some exTracked)).getUuid =
          exTracked.getUuid) :=
  ⟨by decide, construct_from_tracked RevisionItem.Changed "fresh" exTracked emptyPack 0
    (by decide)⟩

/-- Folding appendChild over deltas appends their serialized forms to the
children, in order. -/
lemma foldl_appendChild (l : List Delta) (ty : String) (props : List (String × VVar))
    (ch : List ValueTree) :
    l.foldl (fun t d => t.appendChild d.serialize) (ValueTree.node ty props ch) =
      ValueTree.node ty props (ch ++ l.map Delta.serialize) := by
  induction l generalizing ch with
  | nil => simp
  | cons d rest ih =>
    rw [List.foldl_cons]
    show rest.foldl _ (ValueTree.node ty props (ch ++ [d.serialize])) = _
    rw [ih]
    simp

/-- Serialization of an item with a bound diff logic yields the concrete
revisionItem node with the four attributes and the serialized deltas as
children. -/
lemma serialize_eq (r : RevisionItem) (tag : String) (h : r.logic = some tag) :
    r.serialize = ValueTree.node revisionItemKey
      [(vcsUuidKey, VVar.str r.vcsUuid), (revisionItemTypeKey, VVar.int r.vcsItemType),
       (revisionItemNameKey, VVar.str r.description),
       (revisionItemDiffLogicKey, VVar.str tag)]
      (r.deltas.map Delta.serialize) := by
  unfold RevisionItem.serialize
  rw [h]
  show r.deltas.foldl _ (ValueTree.node revisionItemKey
      [(vcsUuidKey, VVar.str r.vcsUuid), (revisionItemTypeKey, VVar.int r.vcsItemType),
       (revisionItemNameKey, VVar.str r.description),
       (revisionItemDiffLogicKey, VVar.str tag)] []) = _
  rw [foldl_appendChild]
  simp

/-- A delta survives its own serialize/deserialize round trip. -/
lemma delta_roundtrip (d : Delta) : Delta.blank.deserialize d.serialize = d := rfl

/-- Deserialization of an explicit revisionItem node restores each field
from the node's attributes and children. -/
lemma deserialize_node (knownTags : List String) (r : RevisionItem)
    (props : List (String × VVar)) (ch : List ValueTree) :
    RevisionItem.deserialize knownTags r (ValueTree.node revisionItemKey props ch) =
      { r.reset with
        vcsUuid := ((ValueTree.node revisionItemKey props ch).getProperty vcsUuidKey
          (VVar.str r.reset.vcsUuid)).toStr,
        description := ((ValueTree.node revisionItemKey props ch).getProperty
          revisionItemNameKey (VVar.str "")).toStr,
        vcsItemType := ((ValueTree.node revisionItemKey props ch).getProperty
          revisionItemTypeKey (VVar.int RevisionItem.Undefined)).toInt,
        logic := DiffLogic.createLogicFor knownTags
          (((ValueTree.node revisionItemKey props ch).getProperty
            revisionItemDiffLogicKey (VVar.str "")).toStr),
        deltas := ch.map (fun e => Delta.blank.deserialize e) } := rfl

/-- C3: deserializing the serialized form of an item with a registered diff
logic reproduces the type, the name, the diff-logic tag, and the delta id
sequence in insertion order. -/
theorem deserialize_serialize_roundtrip (knownTags : List String) (r r2 : RevisionItem)
    (tag : String) (hlogic : r.logic = some tag) (hknown : tag ∈ knownTags) :
    (RevisionItem.deserialize knownTags r2 r.serialize).getType = r.getType ∧
      (RevisionItem.deserialize knownTags r2 r.serialize).getVCSName = r.getVCSName ∧
      (RevisionItem.deserialize knownTags r2 r.serialize).logic = r.logic ∧
      (RevisionItem.deserialize knownTags r2 r.serialize).deltas.map Delta.vcsUuid =
        r.deltas.map Delta.vcsUuid := by
  rw [serialize_eq r tag hlogic, deserialize_node]
  refine ⟨rfl, rfl, ?_, ?_⟩
  · show DiffLogic.createLogicFor knownTags tag = r.logic
    rw [hlogic]
    simp [DiffLogic.createLogicFor, hknown]
  · show ((r.deltas.map Delta.serialize).map fun e => Delta.blank.deserialize e).map
      Delta.vcsUuid = r.deltas.map Delta.vcsUuid
    rw [List.map_map]
    simp [Function.comp, delta_roundtrip]

/-- Known diff-logic tags of the example. -/
def exKnownTags : List String := ["PianoTrackDiffLogic"]

/-- Example receiver for deserialization. -/
def exEmpty : RevisionItem := RevisionItem.construct RevisionItem.Added "other" none

/-- C3 witness: the example two-delta item survives the round trip. -/
theorem deserialize_serialize_roundtrip_witness :
    exR.logic = some "PianoTrackDiffLogic" ∧ "PianoTrackDiffLogic" ∈ exKnownTags ∧
      ((RevisionItem.deserialize exKnownTags exEmpty exR.serialize).getType = exR.getType ∧
        (RevisionItem.deserialize exKnownTags exEmpty exR.serialize).getVCSName =
          exR.getVCSName ∧
        (RevisionItem.deserialize exKnownTags exEmpty exR.serialize).logic = exR.logic ∧
        (RevisionItem.deserialize exKnownTags exEmpty exR.serialize).deltas.map
            Delta.vcsUuid = exR.deltas.map Delta.vcsUuid) :=
  ⟨rfl, by decide,
    deserialize_serialize_roundtrip exKnownTags exR exEmpty "PianoTrackDiffLogic" rfl
      (by decide)⟩

/-- C1 counterexample: deserializing a revisionItem node whose
revisionItemType attribute holds 99 yields an item whose type is 99, not
Undefined. -/
theorem deserialize_out_of_range_counterexample :
    (RevisionItem.deserialize []
        (RevisionItem.construct RevisionItem.Added "u" none)
        (ValueTree.node revisionItemKey [(revisionItemTypeKey, VVar.int 99)] [])).getType ≠
      RevisionItem.Undefined := by decide

/-- C1 amended: deserialize always completes, and when the revisionItem node
stores the integer n in its revisionItemType attribute the resulting type is
that raw integer — out-of-range values such as 99 are kept by the
static_cast, not mapped to Undefined. -/
theorem deserialize_raw_type (knownTags : List String) (r : RevisionItem)
    (props : List (String × VVar)) (ch : List ValueTree) (n : Int)
    (hprop : getPropList props revisionItemTypeKey = some (VVar.int n)) :
    (RevisionItem.deserialize knownTags r
        (ValueTree.node revisionItemKey props ch)).getType = n := by
  rw [deserialize_node]
  show ((ValueTree.node revisionItemKey props ch).getProperty revisionItemTypeKey
      (VVar.int RevisionItem.Undefined)).toInt = n
  simp [ValueTree.getProperty, hprop, VVar.toInt]

/-- C1 witness: the amended statement at the concrete out-of-range input 99. -/
theorem deserialize_raw_type_witness :
    getPropList [(revisionItemTypeKey, VVar.int 99)] revisionItemTypeKey =
        some (VVar.int 99) ∧
      (RevisionItem.deserialize [] (RevisionItem.construct RevisionItem.Added "u" none)
          (ValueTree.node revisionItemKey
            [(revisionItemTypeKey, VVar.int 99)] [])).getType = 99 :=
  ⟨by decide,
    deserialize_raw_type [] (RevisionItem.construct RevisionItem.Added "u" none)
      [(revisionItemTypeKey, VVar.int 99)] [] 99 (by decide)⟩

/-- Reading back the key just written returns the written payload. -/
lemma createDeltaDataFor_set_self (p : Pack) (a b : String) (v : ValueTree) :
    (p.setDeltaDataFor a b v).createDeltaDataFor a b = v := by
  simp [Pack.setDeltaDataFor, Pack.createDeltaDataFor, packFind]

/-- Writing one key leaves reads of any other key unchanged. -/
lemma createDeltaDataFor_set_ne (p : Pack) (a b a2 b2 : String) (v : ValueTree)
    (h : (a, b) ≠ (a2, b2)) :
    (p.setDeltaDataFor a b v).createDeltaDataFor a2 b2 = p.createDeltaDataFor a2 b2 := by
  simp [Pack.setDeltaDataFor, Pack.createDeltaDataFor, packFind, h]

/-- After writing payloads for the keys of indices 0..n-1 (all distinct),
reading the key of any index j < n returns the payload written for j. -/
lemma createDeltaDataFor_foldl_range (u : String) (key : Nat → String)
    (payload : Nat → ValueTree) (n : Nat) :
    ∀ (p : Pack) (j : Nat), j < n →
      (∀ a b, a < n → b < n → key a = key b → a = b) →
      Pack.createDeltaDataFor
          ((List.range n).foldl (fun q i => q.setDeltaDataFor u (key i) (payload i)) p)
          u (key j) = payload j := by
  induction n with
  | zero => intro p j hj _; omega
  | succ m ih =>
    intro p j hj hinj
    rw [List.range_succ, List.foldl_append, List.foldl_cons, List.foldl_nil]
    by_cases hjm : j = m
    · subst hjm
      exact createDeltaDataFor_set_self _ _ _ _
    · have hj2 : j < m := by omega
      have hne : (u, key m) ≠ (u, key j) := fun hc =>
        hjm ((hinj m j (by omega) (by omega) (congrArg Prod.snd hc)).symm)
      rw [createDeltaDataFor_set_ne _ _ _ _ _ _ hne]
      exact ih p j hj2 (fun a b ha hb hab => hinj a b (by omega) (by omega) hab)

/-- C6: after flushData, a read of any index the pending cache covered
returns the payload that was pending at flush time, now fetched from the
Pack, provided the cache did not outrun the delta list and the delta uuids
are distinct. -/
theorem flushData_then_read (r : RevisionItem) (p : Pack) (i : Nat)
    (hi : i < r.deltasData.length)
    (hlen : r.deltasData.length ≤ r.deltas.length)
    (hnodup : (r.deltas.map Delta.vcsUuid).Nodup) :
    (r.flushData p).1.serializeDeltaData ((r.flushData p).2) i =
      r.deltasData.getD i ValueTree.invalid := by
  have hinj : ∀ a b, a < r.deltasData.length → b < r.deltasData.length →
      (r.deltas.getD a Delta.blank).vcsUuid = (r.deltas.getD b Delta.blank).vcsUuid →
      a = b := by
    intro a b ha hb hab
    have ha2 : a < r.deltas.length := lt_of_lt_of_le ha hlen
    have hb2 : b < r.deltas.length := lt_of_lt_of_le hb hlen
    have ha3 : a < (r.deltas.map Delta.vcsUuid).length := by simpa using ha2
    have hb3 : b < (r.deltas.map Delta.vcsUuid).length := by simpa using hb2
    apply (@List.Nodup.getElem_inj_iff _ _ hnodup a ha3 b hb3).mp
    rw [List.getElem_map, List.getElem_map, ← List.getD_eq_getElem r.deltas Delta.blank ha2,
      ← List.getD_eq_getElem r.deltas Delta.blank hb2]
    exact hab
  have h1 : (r.flushData p).1 = { r with deltasData := [] } := rfl
  have h2 : (r.flushData p).2 = (List.range r.deltasData.length).foldl
      (fun q k => q.setDeltaDataFor r.getUuid ((r.deltas.getD k Delta.blank).vcsUuid)
        (r.deltasData.getD k ValueTree.invalid)) p := rfl
  rw [h1, h2]
  unfold RevisionItem.serializeDeltaData
  dsimp only
  rw [if_neg (by simp)]
  exact createDeltaDataFor_foldl_range r.getUuid
    (fun k => (r.deltas.getD k Delta.blank).vcsUuid)
    (fun k => r.deltasData.getD k ValueTree.invalid)
    r.deltasData.length p i hi hinj

/-- C6 witness: flushing the example two-delta item and reading index 0
returns the first pending payload from the pack. -/
theorem flushData_then_read_witness :
    0 < exR.deltasData.length ∧ exR.deltasData.length ≤ exR.deltas.length ∧
      (exR.deltas.map Delta.vcsUuid).Nodup ∧
      (exR.flushData emptyPack).1.serializeDeltaData ((exR.flushData emptyPack).2) 0 =
        exR.deltasData.getD 0 ValueTree.invalid :=
  ⟨by decide, by decide, by decide,
    flushData_then_read exR emptyPack 0 (by decide) (by decide) (by decide)⟩

/-- The search loop finds nothing when no delta has the requested uuid. -/
lemma findDeltaIdx_eq_none (deltas : List Delta) (u : String)
    (h : ∀ d ∈ deltas, d.vcsUuid ≠ u) : findDeltaIdx deltas u = none := by
  induction deltas with
  | nil => rfl
  | cons d rest ih =>
    unfold findDeltaIdx
    rw [if_neg (h d (List.mem_cons_self d rest)),
      ih (fun x hx => h x (List.mem_cons_of_mem d hx))]
    rfl

/-- The search loop returns the index of the first delta with the requested
uuid. -/
lemma findDeltaIdx_eq_some (deltas : List Delta) (u : String) :
    ∀ (i : Nat), i < deltas.length →
      (deltas.getD i Delta.blank).vcsUuid = u →
      (∀ j, j < i → (deltas.getD j Delta.blank).vcsUuid ≠ u) →
      findDeltaIdx deltas u = some i := by
  induction deltas with
  | nil => intro i hi _ _; simp at hi
  | cons d rest ih =>
    intro i hi hmatch hfirst
    cases i with
    | zero =>
      unfold findDeltaIdx
      rw [if_pos (show d.vcsUuid = u from hmatch)]
    | succ k =>
      unfold findDeltaIdx
      rw [if_neg (show d.vcsUuid ≠ u from hfirst 0 (Nat.succ_pos k))]
      rw [ih k (by simp at hi; omega) (by exact hmatch)
        (fun j hj => by exact hfirst (j + 1) (by omega))]
      rfl

/-- C8: importDataForDelta with a uuid matching no delta changes nothing;
with the uuid of the first matching delta at index i it keeps the delta
list, grows the pending cache with placeholder entries up to index i, and
overwrites slot i with a copy of the payload. -/
theorem importDataForDelta_cases (r : RevisionItem) (payload : ValueTree)
    (u : String) (i : Nat) :
    ((∀ d ∈ r.deltas, d.vcsUuid ≠ u) → r.importDataForDelta payload u = r) ∧
      (i < r.deltas.length →
        (r.deltas.getD i Delta.blank).vcsUuid = u →
        (∀ j, j < i → (r.deltas.getD j Delta.blank).vcsUuid ≠ u) →
        (r.importDataForDelta payload u).deltas = r.deltas ∧
          (r.importDataForDelta payload u).deltasData =
            (r.deltasData ++
              List.replicate (i + 1 - r.deltasData.length) dummyTree).set i payload) := by
  constructor
  · intro h
    unfold RevisionItem.importDataForDelta
    rw [findDeltaIdx_eq_none r.deltas u h]
  · intro hi hmatch hfirst
    unfold RevisionItem.importDataForDelta
    rw [findDeltaIdx_eq_some r.deltas u i hi hmatch hfirst]
    exact ⟨rfl, rfl⟩

/-- C8 witness: an unknown uuid leaves the example item unchanged, and the
uuid of its first delta overwrites cache slot 0 with the new payload. -/
theorem importDataForDelta_witness :
    (∀ d ∈ exR.deltas, d.vcsUuid ≠ "unknown-uuid") ∧
      RevisionItem.importDataForDelta exR exPayload1 "unknown-uuid" = exR ∧
      0 < exR.deltas.length ∧
      (exR.deltas.getD 0 Delta.blank).vcsUuid = "delta-one" ∧
      ((RevisionItem.importDataForDelta exR exPayload2 "delta-one").deltas = exR.deltas ∧
        (RevisionItem.importDataForDelta exR exPayload2 "delta-one").deltasData =
          (exR.deltasData ++
            List.replicate (0 + 1 - exR.deltasData.length) dummyTree).set 0 exPayload2) :=
  ⟨by decide,
    (importDataForDelta_cases exR exPayload1 "unknown-uuid" 0).1 (by decide),
    by decide, by decide,
    (importDataForDelta_cases exR exPayload2 "delta-one" 0).2 (by decide) (by decide)
      (by decide)⟩
